import Mathlib

/-!
Verification of the DiagnoMed client (React single-page application).

The definitions below are a shallow embedding of the client code:

* `extractSymptoms`, `getProbabilityColor`, `getConfidenceColor`,
  `resumeSession`, `startDiagnosis`'s request builder, `submitTestResult`
  and `getFinalResult` come from the `DiagnosisFlow` component;
* `handleUpload` and `handleSkipScan` come from the `UploadScansPage`
  component;
* `handleSymptomOnlyAnalysis` and the month selector come from the
  `SymptomsPage` component.

JavaScript-specific behaviour is embedded explicitly: `String.replace`
with a string pattern replaces only the first occurrence
(`replaceFirstL`), `x || d` on strings treats the empty string as falsy
(`jsOrElse`, `optStrTruthy`), and object spread plus a computed key is a
pointwise function update.  Browser state (localStorage) is the `Storage`
record, component state is the `FlowState` record, and network responses
are explicit `FetchResult` values, so each handler becomes a pure state
transformer.
-/

namespace DiagnoMed

/-- Lowercasing as performed by `text.toLowerCase()` (per character). -/
def jsToLower (s : String) : String :=
  String.mk (s.data.map Char.toLower)

/-- `pat` occurs as a contiguous sublist of the second argument. -/
def listIsInfixOf (pat : List Char) : List Char → Bool
  | [] => pat.isEmpty
  | c :: rest => pat.isPrefixOf (c :: rest) || listIsInfixOf pat rest

/-- `s.includes(sub)`: substring containment. -/
def strContains (s sub : String) : Bool :=
  listIsInfixOf sub.data s.data

/-- Replace the first occurrence of `pat` in a character list by `rep`,
the semantics of JavaScript `String.replace` with a string pattern. -/
def replaceFirstL (pat rep : List Char) : List Char → List Char
  | [] => []
  | c :: rest =>
    if pat.isPrefixOf (c :: rest) then rep ++ (c :: rest).drop pat.length
    else c :: replaceFirstL pat rep rest

/-- `s.replace(pat, rep)` in JavaScript: only the first occurrence of the
string pattern is replaced. -/
def jsReplaceFirst (s pat rep : String) : String :=
  String.mk (replaceFirstL pat.data rep.data s.data)

/-- Modelled from the spec: the human-readable variant of a symptom code
with every underscore replaced by a space ("underscore vs. space").  This
follows the spec's words and is compared against the source's
`s.replace("_", " ")`, which replaces only the first underscore. -/
def underscoresToSpaces (s : String) : String :=
  String.mk (s.data.map (fun c => if c = '_' then ' ' else c))

/-- The fixed symptom vocabulary of `extractSymptoms` (17 entries). -/
def knownSymptoms : List String :=
  ["fever", "headache", "cough", "fatigue", "joint_pain",
   "rash", "nausea", "vomiting", "diarrhea", "chills",
   "chest_pain", "shortness_of_breath", "body_aches",
   "sore_throat", "runny_nose", "muscle_pain", "weakness"]

/-- `extractSymptoms` from `DiagnosisFlow`: keep each vocabulary entry
whose first-underscore-despaced variant or literal form occurs in the
lowercased input. -/
def extractSymptoms (text : String) : List String :=
  let textLower := jsToLower text
  knownSymptoms.filter
    (fun s => strContains textLower (jsReplaceFirst s "_" " ") || strContains textLower s)

/-- `getProbabilityColor` from `DiagnosisFlow` (probabilities as ℚ). -/
def getProbabilityColor (prob : ℚ) : String :=
  if prob ≥ 7/10 then "bg-red-500"
  else if prob ≥ 4/10 then "bg-yellow-500"
  else "bg-green-500"

/-- `getConfidenceColor` from `DiagnosisFlow`. -/
def getConfidenceColor (level : String) : String :=
  if level = "High" then "text-green-600 bg-green-50 border-green-200"
  else if level = "Medium" then "text-yellow-600 bg-yellow-50 border-yellow-200"
  else "text-red-600 bg-red-50 border-red-200"

/-- JavaScript truthiness of a nullable string: `null` and `""` are
falsy. -/
def optStrTruthy : Option String → Bool
  | none => false
  | some s => !(s == "")

/-- `x || d` on a nullable string (`localStorage.getItem(k) || d`). -/
def jsOrElse (o : Option String) (d : String) : String :=
  match o with
  | none => d
  | some s => if s = "" then d else s

/-- `s.trim()`: strip leading and trailing whitespace. -/
def jsTrim (s : String) : String :=
  String.mk (((s.data.dropWhile Char.isWhitespace).reverse.dropWhile Char.isWhitespace).reverse)

/-- `s.split(",").map(x => x.trim()).filter(Boolean)` from
`startDiagnosis`. -/
def jsSplitTrimFilter (s : String) : List String :=
  ((s.splitOn ",").map jsTrim).filter (fun x => x ≠ "")

/-- An imaging label→confidence mapping (parsed `cnn_predictions`). -/
abbrev CnnPreds := List (String × ℚ)

/-- A disease candidate as rendered by the client. -/
structure Candidate where
  disease_id : String
  name : String
  base_probability : ℚ
deriving Repr, DecidableEq

/-- A recommended diagnostic test as rendered by the client. -/
structure TestRec where
  test_id : String
  name : String
  for_disease : String
  cost_usd : ℚ
  sensitivity : ℚ
  specificity : ℚ
deriving Repr, DecidableEq

/-- A similar historical case returned by the case index. -/
structure SimilarCase where
  diagnosis : String
  symptoms : List String
  similarity_score : ℚ
deriving Repr, DecidableEq

/-- Treatment payload; the flow state stores it without transforming it,
so it is embedded opaquely. -/
structure Treatment where
  payload : String
deriving Repr, DecidableEq

/-- Trustworthiness payload; stored untransformed by the flow state. -/
structure Trustworthiness where
  payload : String
deriving Repr, DecidableEq

/-- Report payload; stored untransformed by the flow state. -/
structure Report where
  payload : String
deriving Repr, DecidableEq

/-- Contextual-factors payload; stored untransformed by the flow state. -/
structure ContextualFactors where
  payload : String
deriving Repr, DecidableEq

/-- The localStorage keys touched by the verified components.  `none`
models an absent key. -/
structure Storage where
  symptoms : Option String
  patientRegion : Option String
  symptomMonth : Option Nat
  familyHistory : Option String
  geneticVariants : Option String
  cnnPredictions : Option CnnPreds
  imageUrl : Option String
  gradcamUrl : Option String
  diagnosisCaseId : Option String
  diagnosisSessionId : Option String
  lastCaseId : Option String
  lastAnalysis : Option String
deriving Repr

/-- The `DiagnosisFlow` component state (`useState` hooks).  The
completed-tests object is embedded as its lookup function. -/
structure FlowState where
  step : Nat
  loading : Bool
  error : String
  sessionId : Option String
  candidates : List Candidate
  recommendedTests : List TestRec
  completedTests : String → Option String
  totalCost : ℚ
  sessionStatus : String
  treatment : Option Treatment
  trustworthiness : Option Trustworthiness
  report : Option Report
  contextualFactors : Option ContextualFactors
  similarCases : List SimilarCase
  contraindications : String

/-- Outcome of a `fetch` call: an HTTP-ok response with parsed body, a
non-ok response carrying an optional `detail` text, or a thrown error
(network failure or JSON parse failure). -/
inductive FetchResult (α : Type) where
  | ok (data : α)
  | httpError (detail : Option String)
  | netError (msg : String)

/-- A failed request: anything other than an ok response. -/
def fetchFailed {α : Type} : FetchResult α → Prop
  | .ok _ => False
  | .httpError _ => True
  | .netError _ => True

/-- Body of a successful `GET /api/diagnosis/{id}/status` response; every
field the client reads, each optional because the client defaults it. -/
structure StatusResponse where
  candidates : Option (List Candidate)
  recommended_tests : Option (List TestRec)
  completed_tests : Option (String → Option String)
  total_cost : Option ℚ
  status : Option String

/-- The effect of one `resumeSession` run: the new component state, the
new localStorage contents, and the symptoms text passed to
`startDiagnosis` when a restart was triggered (`none` when it was not). -/
structure ResumeEffect where
  state : FlowState
  store : Storage
  restartedWith : Option String

/-- `resumeSession` from `DiagnosisFlow`.  On an ok response it assigns
the response fields into component state (with the code's `|| default`
fallbacks) and moves to step 2; on a non-ok response it clears the saved
session id and restarts from stored symptoms when they exist; on a thrown
error it clears the saved session id and records an error message. -/
def resumeSession (savedSessionId : String) (res : FetchResult StatusResponse)
    (st : FlowState) (store : Storage) : ResumeEffect :=
  let st0 := { st with loading := true, error := "" }
  match res with
  | .ok data =>
      { state := { st0 with
          sessionId := some savedSessionId,
          candidates := data.candidates.getD [],
          recommendedTests := data.recommended_tests.getD [],
          completedTests := data.completed_tests.getD (fun _ => none),
          totalCost := data.total_cost.getD 0,
          sessionStatus := jsOrElse data.status "in_progress",
          step := 2,
          loading := false }
        store := store
        restartedWith := none }
  | .httpError _ =>
      let store1 := { store with diagnosisSessionId := none }
      { state := { st0 with loading := false }
        store := store1
        restartedWith := if optStrTruthy store1.symptoms then store1.symptoms else none }
  | .netError msg =>
      { state := { st0 with error := "Could not resume session: " ++ msg, loading := false }
        store := { store with diagnosisSessionId := none }
        restartedWith := none }

/-- Body of a successful `POST /api/patient/submit` response as used by
`UploadScansPage`: the created case id and (abstractly) the serialized
JSON text stored into `lastAnalysis`. -/
structure SubmitResponse where
  case_id : String
  raw : String
deriving Repr, DecidableEq

/-- What `handleUpload` does before any network traffic: either it
rejects the submission with a status message and returns (no request is
issued), or it submits a form carrying the stored symptoms text and
whether an image file was attached. -/
inductive UploadAction where
  | rejected (status : String)
  | submitted (formSymptoms : String) (withImage : Bool)
deriving Repr, DecidableEq

/-- The validation stage of `handleUpload` from `UploadScansPage`: with
neither a selected file nor stored symptoms it sets a message and returns
before the fetch. -/
def handleUpload (file : Option String) (store : Storage) : UploadAction :=
  let symptoms := jsOrElse store.symptoms ""
  if file.isNone && (symptoms == "") then
    UploadAction.rejected "❌ Please provide symptoms or select an image file."
  else
    UploadAction.submitted symptoms file.isSome

/-- The effect of one `handleSkipScan` run: the status message, the new
localStorage contents, whether a backend request was issued, and whether
the page navigated on to the diagnosis flow. -/
structure SkipScanResult where
  status : String
  store : Storage
  requestSent : Bool
  navigated : Bool

/-- `handleSkipScan` from `UploadScansPage`: refuse when no symptoms are
stored; otherwise submit, and on success record the case, clear the
imaging keys and the saved session id, and navigate to the diagnosis
flow. -/
def handleSkipScan (res : FetchResult SubmitResponse) (store : Storage) :
    SkipScanResult :=
  if optStrTruthy store.symptoms = false then
    { status := "⚠️ No symptoms saved. Please go back and enter symptoms first."
      store := store, requestSent := false, navigated := false }
  else
    match res with
    | .ok data =>
        { status := "✅ Analysis complete!"
          store := { store with
            lastCaseId := some data.case_id,
            lastAnalysis := some data.raw,
            cnnPredictions := none, imageUrl := none, gradcamUrl := none,
            diagnosisCaseId := none, diagnosisSessionId := none }
          requestSent := true, navigated := true }
    | .httpError d =>
        { status := "❌ Error: " ++ jsOrElse d "Something went wrong"
          store := store, requestSent := true, navigated := false }
    | .netError _ =>
        { status := "❌ Server error, please try again later."
          store := store, requestSent := true, navigated := false }

/-- The body of the `POST /api/diagnosis/start` request built by
`startDiagnosis`; `none` models an omitted field. -/
structure StartRequest where
  symptoms : List String
  region : String
  month : Option Nat
  family_history : List String
  genetic_variants : List String
  cnn_predictions : Option CnnPreds
  case_id : Option String
  image_url : Option String
  gradcam_url : Option String
deriving Repr

/-- Keep a nullable string only when it is JavaScript-truthy (the
`if (x) body.k = x` pattern). -/
def optIfTruthy (o : Option String) : Option String :=
  if optStrTruthy o then o else none

/-- The request builder inside `startDiagnosis`: extracted symptom codes,
region defaulting to "Global", optional stored month, comma-split trimmed
nonempty family-history and genetic-variant terms, and imaging fields
only when the corresponding argument exists. -/
def buildStartRequest (symptomsText : String) (cnnPreds : Option CnnPreds)
    (imgUrl gcamUrl csId : Option String) (store : Storage) : StartRequest :=
  { symptoms := extractSymptoms symptomsText
    region := jsOrElse store.patientRegion "Global"
    month := store.symptomMonth
    family_history :=
      match store.familyHistory with
      | none => []
      | some s => if s = "" then [] else jsSplitTrimFilter s
    genetic_variants :=
      match store.geneticVariants with
      | none => []
      | some s => if s = "" then [] else jsSplitTrimFilter s
    cnn_predictions := cnnPreds
    case_id := optIfTruthy csId
    image_url := optIfTruthy imgUrl
    gradcam_url := optIfTruthy gcamUrl }

/-- The values offered by the `SymptomsPage` month-of-onset selector:
`Array.from({length: 12}, (_, i) => i + 1)`. -/
def monthOptions : List Nat := (List.range 12).map (fun i => i + 1)

/-- What the `DiagnosisFlow` mount effect decides to do from
localStorage: resume a saved session, start a fresh diagnosis with a
built request, or do nothing. -/
inductive FlowInitAction where
  | resume (sessionId : String)
  | start (req : StartRequest)
  | idle
deriving Repr

/-- The `DiagnosisFlow` mount effect: an existing saved session is
resumed; otherwise stored symptoms start a diagnosis carrying the stored
imaging data. -/
def diagnosisFlowInit (store : Storage) : FlowInitAction :=
  if optStrTruthy store.diagnosisSessionId then
    FlowInitAction.resume (store.diagnosisSessionId.getD "")
  else if optStrTruthy store.symptoms then
    FlowInitAction.start
      (buildStartRequest (store.symptoms.getD "") store.cnnPredictions
        store.imageUrl store.gradcamUrl store.diagnosisCaseId store)
  else
    FlowInitAction.idle

/-- Body of a successful `POST .../test-result` response; every field the
client reads. -/
structure TestResultResponse where
  updated_candidates : Option (List Candidate)
  recommended_tests : Option (List TestRec)
  total_cost : Option ℚ
  status : String

/-- `submitTestResult` from `DiagnosisFlow`: on an ok response replace
candidates, cost, status and (when provided) the recommended slate, and
record the submitted outcome under the submitted test id, keeping the
other completed entries. -/
def submitTestResult (testId result : String)
    (res : FetchResult TestResultResponse) (st : FlowState) : FlowState :=
  match st.sessionId with
  | none => st
  | some _ =>
    match res with
    | .ok data =>
        { st with
          candidates := data.updated_candidates.getD [],
          totalCost := data.total_cost.getD 0,
          sessionStatus := data.status,
          recommendedTests :=
            match data.recommended_tests with
            | some slate => slate
            | none => st.recommendedTests,
          completedTests :=
            fun k => if k = testId then some result else st.completedTests k,
          loading := false }
    | .httpError d =>
        { st with error := jsOrElse d "Failed to submit test result", loading := false }
    | .netError msg =>
        { st with error := "Server error: " ++ msg, loading := false }

/-- Body of a successful `GET .../result` response. -/
structure ResultResponse where
  treatment : Treatment
  trustworthiness : Trustworthiness
  report : Report
deriving Repr, DecidableEq

/-- Body of the similar-cases response; the field is absent on an error
payload. -/
structure SimilarResponse where
  similar_cases : Option (List SimilarCase)
deriving Repr, DecidableEq

/-- Outcome of the similar-cases fetch as the code consumes it: the inner
`try` parses the JSON whatever the HTTP status, so the outcome is either
a parsed body or a thrown error. -/
inductive SimilarFetch where
  | json (data : SimilarResponse)
  | thrown
deriving Repr, DecidableEq

/-- The similar-case retrieval contributed nothing: it threw, or its body
carried no `similar_cases` field. -/
def similarFailed : SimilarFetch → Bool
  | .json sdata => sdata.similar_cases.isNone
  | .thrown => true

/-- `getFinalResult` from `DiagnosisFlow`: on an ok response store
treatment, trustworthiness and report, merge in similar cases when their
fetch yields some, persist the last analysis, clear the saved session id
and advance to the results step; the similar-cases fetch is guarded by
its own try/catch and cannot fail the surrounding flow. -/
def getFinalResult (res : FetchResult ResultResponse) (similar : SimilarFetch)
    (st : FlowState) (store : Storage) : FlowState × Storage :=
  match st.sessionId with
  | none => (st, store)
  | some _ =>
    match res with
    | .ok data =>
        let st1 := { st with
          loading := true,
          treatment := some data.treatment,
          trustworthiness := some data.trustworthiness,
          report := some data.report }
        let st2 :=
          match similar with
          | .json sdata =>
              match sdata.similar_cases with
              | some cs => { st1 with similarCases := cs }
              | none => st1
          | .thrown => st1
        ({ st2 with step := 3, loading := false },
         { store with lastAnalysis := some "lastAnalysis", diagnosisSessionId := none })
    | .httpError _ => ({ st with loading := false }, store)
    | .netError _ =>
        ({ st with error := "Failed to get results", loading := false }, store)

/-- All four imaging keys are absent from localStorage. -/
def imagingCleared (store : Storage) : Prop :=
  store.cnnPredictions = none ∧ store.imageUrl = none
    ∧ store.gradcamUrl = none ∧ store.diagnosisCaseId = none

/-- Any diagnosis the mount effect starts from this storage builds a
request without imaging fields. -/
def startHasNoImaging (store : Storage) : Prop :=
  ∀ req, diagnosisFlowInit store = FlowInitAction.start req →
    req.cnn_predictions = none ∧ req.case_id = none
      ∧ req.image_url = none ∧ req.gradcam_url = none

/-- `handleSymptomOnlyAnalysis` from `SymptomsPage`: refuse on blank
symptoms; otherwise store the entered context, clear the imaging keys and
the saved session id, and navigate to the diagnosis flow.  The returned
Bool records whether navigation happened. -/
def handleSymptomOnlyAnalysis (symptoms region : String) (month : Nat)
    (familyHistory geneticVariants : String) (store : Storage) :
    Storage × Bool :=
  if jsTrim symptoms = "" then (store, false)
  else
    ({ store with
        symptoms := some symptoms,
        patientRegion := some region,
        symptomMonth := some month,
        familyHistory := some familyHistory,
        geneticVariants := some geneticVariants,
        cnnPredictions := none, imageUrl := none, gradcamUrl := none,
        diagnosisCaseId := none, diagnosisSessionId := none }, true)

/-- A `Storage` with every key absent. -/
def emptyStorage : Storage :=
  { symptoms := none, patientRegion := none, symptomMonth := none,
    familyHistory := none, geneticVariants := none, cnnPredictions := none,
    imageUrl := none, gradcamUrl := none, diagnosisCaseId := none,
    diagnosisSessionId := none, lastCaseId := none, lastAnalysis := none }

/-- A `Storage` holding raw symptoms and a saved session id, the
situation in which a resume is attempted. -/
def storeFever : Storage :=
  { emptyStorage with symptoms := some "fever and cough", diagnosisSessionId := some "s1" }

/-- The initial `DiagnosisFlow` component state (`useState` defaults). -/
def initialFlowState : FlowState :=
  { step := 1, loading := false, error := "", sessionId := none,
    candidates := [], recommendedTests := [], completedTests := fun _ => none,
    totalCost := 0, sessionStatus := "in_progress", treatment := none,
    trustworthiness := none, report := none, contextualFactors := none,
    similarCases := [], contraindications := "" }

/-- A `Storage` whose month of onset was chosen from the selector. -/
def storeContext : Storage :=
  { emptyStorage with
    symptomMonth := some 3,
    familyHistory := some "Diabetes, Hypertension" }

/-- The flow state of an in-progress session (used to evaluate the
session-bound handlers at a concrete input). -/
def flowWithSession : FlowState :=
  { initialFlowState with sessionId := some "s1" }

/-- A concrete final-result response body. -/
def sampleResultResponse : ResultResponse :=
  { treatment := { payload := "treatment" },
    trustworthiness := { payload := "trust" },
    report := { payload := "report" } }

/-- A concrete test-result response body carrying an explicit (empty)
recommended slate. -/
def sampleTestResultResponse : TestResultResponse :=
  { updated_candidates := some [],
    recommended_tests := some [],
    total_cost := some 25,
    status := "in_progress" }

/-- A concrete patient-submit response body. -/
def sampleSubmitResponse : SubmitResponse :=
  { case_id := "case-1", raw := "serialized" }

end DiagnoMed

namespace DiagnoMed

/-- `x || d` yields the default exactly on a falsy `x`. -/
theorem jsOrElse_of_falsy (o : Option String) (d : String)
    (h : optStrTruthy o = false) : jsOrElse o d = d := by
  cases o with
  | none => rfl
  | some s =>
    simp only [optStrTruthy, Bool.not_eq_false', beq_iff_eq] at h
    simp [jsOrElse, h]

/-- A storage whose imaging keys are all absent seeds no imaging fields
into a started request. -/
theorem startHasNoImaging_of_cleared (s : Storage)
    (h : imagingCleared s) : startHasNoImaging s := by
  intro req hreq
  obtain ⟨hc, hi, hg, hd⟩ := h
  unfold diagnosisFlowInit at hreq
  split at hreq
  · exact absurd hreq (by simp)
  · split at hreq
    · injection hreq with h
      subst h
      exact ⟨hc, by simp [buildStartRequest, optIfTruthy, optStrTruthy, hd],
        by simp [buildStartRequest, optIfTruthy, optStrTruthy, hi],
        by simp [buildStartRequest, optIfTruthy, optStrTruthy, hg]⟩
    · exact absurd hreq (by simp)

/-- C1: claim as stated — membership in the extractor output iff the
lowercased text contains the code or its fully space-separated variant.
Shown false: `"shortness_of_breath"` has two underscores and
`String.replace` despaces only the first, so the text
"shortness of breath" (which contains the fully space-separated form)
yields no code at all. -/
theorem C1_counterexample :
    strContains (jsToLower "shortness of breath")
      (underscoresToSpaces "shortness_of_breath") = true
    ∧ "shortness_of_breath" ∉ extractSymptoms "shortness of breath" := by
  decide

/-- C1 (amended): for every input text and string `s`, `s` is in the
extractor output iff `s` is a vocabulary entry and the lowercased text
contains, as a substring, either `s` itself or `s` with only its first
underscore replaced by a space. -/
theorem C1_extract_membership (text s : String) :
    s ∈ extractSymptoms text ↔
      s ∈ knownSymptoms ∧
        (strContains (jsToLower text) (jsReplaceFirst s "_" " ") = true
          ∨ strContains (jsToLower text) s = true) := by
  simp [extractSymptoms, List.mem_filter, Bool.or_eq_true]

/-- C3: the extractor always returns a duplicate-free list of vocabulary
entries, and returns the empty list whenever no vocabulary entry (in
either form) occurs in the lowercased text. -/
theorem C3_extract_wellformed (text : String) :
    (extractSymptoms text).Nodup
    ∧ (∀ s ∈ extractSymptoms text, s ∈ knownSymptoms)
    ∧ ((∀ s ∈ knownSymptoms,
          strContains (jsToLower text) (jsReplaceFirst s "_" " ") = false
          ∧ strContains (jsToLower text) s = false) →
        extractSymptoms text = []) := by
  refine ⟨?_, ?_, ?_⟩
  · exact List.Nodup.filter _ (by decide)
  · intro s hs
    exact ((C1_extract_membership text s).mp hs).1
  · intro h
    apply List.filter_eq_nil_iff.mpr
    intro s hs
    simp only [Bool.or_eq_true, not_or]
    have := h s hs
    simp [this.1, this.2]

/-- C3 witness: a text matching no vocabulary entry yields the empty
list. -/
theorem C3_witness : extractSymptoms "no matching words here" = [] :=
  (C3_extract_wellformed "no matching words here").2.2 (by decide)

/-- C2: the probability colouring uses exactly the shared thresholds —
the High bucket iff `p ≥ 0.70`, the Medium bucket iff `0.40 ≤ p < 0.70`,
the Low bucket iff `p < 0.40` — and the confidence colouring maps "High"
and "Medium" to their dedicated styles and every other level to the Low
style. -/
theorem C2_color_thresholds (p : ℚ) :
    (getProbabilityColor p = "bg-red-500" ↔ 7/10 ≤ p)
    ∧ (getProbabilityColor p = "bg-yellow-500" ↔ 4/10 ≤ p ∧ p < 7/10)
    ∧ (getProbabilityColor p = "bg-green-500" ↔ p < 4/10)
    ∧ getConfidenceColor "High" = "text-green-600 bg-green-50 border-green-200"
    ∧ getConfidenceColor "Medium" = "text-yellow-600 bg-yellow-50 border-yellow-200"
    ∧ (∀ level : String, level ≠ "High" → level ≠ "Medium" →
        getConfidenceColor level = "text-red-600 bg-red-50 border-red-200") := by
  refine ⟨?_, ?_, ?_, by decide, by decide, ?_⟩
  · unfold getProbabilityColor
    split_ifs with h1 h2
    · exact iff_of_true rfl h1
    · exact iff_of_false (by decide) h1
    · exact iff_of_false (by decide) h1
  · unfold getProbabilityColor
    split_ifs with h1 h2
    · exact iff_of_false (by decide) (fun h => absurd h.2 (not_lt.mpr h1))
    · exact iff_of_true rfl ⟨h2, lt_of_not_ge h1⟩
    · exact iff_of_false (by decide) (fun h => h2 h.1)
  · unfold getProbabilityColor
    split_ifs with h1 h2
    · exact iff_of_false (by decide)
        (not_lt.mpr (le_trans (by norm_num) h1))
    · exact iff_of_false (by decide) (not_lt.mpr h2)
    · exact iff_of_true rfl (lt_of_not_ge h2)
  · intro level hH hM
    unfold getConfidenceColor
    rw [if_neg hH, if_neg hM]

/-- C2 witness: the universally quantified part evaluated at the
confidence level "Low". -/
theorem C2_witness :
    getConfidenceColor "Low" = "text-red-600 bg-red-50 border-red-200" :=
  (C2_color_thresholds 0).2.2.2.2.2 "Low" (by decide) (by decide)

/-- C4: on every ok status response, resuming assigns candidates,
recommended tests, completed tests and total cost exactly from the
response (with the code's defaults for absent fields) — in particular the
cost is assigned, independent of any prior local value — and triggers no
replay (no restart of the diagnosis). -/
theorem C4_resume_assigns (sid : String) (data : StatusResponse)
    (st : FlowState) (store : Storage) :
    (resumeSession sid (.ok data) st store).state.candidates = data.candidates.getD []
    ∧ (resumeSession sid (.ok data) st store).state.recommendedTests
        = data.recommended_tests.getD []
    ∧ (resumeSession sid (.ok data) st store).state.completedTests
        = data.completed_tests.getD (fun _ => none)
    ∧ (resumeSession sid (.ok data) st store).state.totalCost = data.total_cost.getD 0
    ∧ (resumeSession sid (.ok data) st store).restartedWith = none :=
  ⟨rfl, rfl, rfl, rfl, rfl⟩

/-- C5: claim as stated — that every failing resume (non-ok response or
thrown error) removes the stored session id and restarts from the stored
raw symptoms.  Shown false: on a thrown request error the code removes
the session id and sets an error message but never calls
`startDiagnosis`, even though symptoms are stored. -/
theorem C5_counterexample :
    ¬ (∀ (sid : String) (res : FetchResult StatusResponse)
          (st : FlowState) (store : Storage),
        fetchFailed res → optStrTruthy store.symptoms = true →
        (resumeSession sid res st store).store.diagnosisSessionId = none
        ∧ (resumeSession sid res st store).restartedWith = store.symptoms) := by
  intro h
  have h2 := (h "s1" (.netError "Failed to fetch") initialFlowState storeFever
    trivial (by decide)).2
  exact Option.noConfusion h2

/-- C5 (amended): on a non-ok status response the client removes the
stored session id and restarts from the stored raw symptoms exactly when
such symptoms exist; on a thrown request error it removes the stored
session id and records an error message, without restarting. -/
theorem C5_resume_failure (sid msg : String) (d : Option String)
    (st : FlowState) (store : Storage) :
    ((resumeSession sid (.httpError d) st store).store.diagnosisSessionId = none
      ∧ (resumeSession sid (.httpError d) st store).restartedWith =
          (if optStrTruthy store.symptoms then store.symptoms else none))
    ∧ ((resumeSession sid (.netError msg) st store).store.diagnosisSessionId = none
      ∧ (resumeSession sid (.netError msg) st store).restartedWith = none
      ∧ (resumeSession sid (.netError msg) st store).state.error =
          "Could not resume session: " ++ msg) :=
  ⟨⟨rfl, rfl⟩, rfl, rfl, rfl⟩

/-- C6: with neither an image file nor stored symptoms, the upload
handler sets a validation message and returns without issuing any backend
request, and the skip-scan handler likewise refuses to submit. -/
theorem C6_start_validation (file : Option String) (store : Storage)
    (res : FetchResult SubmitResponse)
    (hfile : file = none) (hsym : optStrTruthy store.symptoms = false) :
    handleUpload file store
      = UploadAction.rejected "❌ Please provide symptoms or select an image file."
    ∧ (handleSkipScan res store).requestSent = false
    ∧ (handleSkipScan res store).status
        = "⚠️ No symptoms saved. Please go back and enter symptoms first." := by
  subst hfile
  have hOr : jsOrElse store.symptoms "" = "" := jsOrElse_of_falsy _ _ hsym
  refine ⟨?_, ?_, ?_⟩
  · simp [handleUpload, hOr]
  · simp [handleSkipScan, hsym]
  · simp [handleSkipScan, hsym]

/-- C6 witness: empty storage and no selected file. -/
theorem C6_witness :
    handleUpload none emptyStorage
      = UploadAction.rejected "❌ Please provide symptoms or select an image file."
    ∧ (handleSkipScan (.netError "down") emptyStorage).requestSent = false :=
  ⟨(C6_start_validation none emptyStorage (.netError "down") rfl rfl).1,
   (C6_start_validation none emptyStorage (.netError "down") rfl rfl).2.1⟩

/-- C7: when the treatment/trust response succeeds, a failure of the
similar-case retrieval never prevents the report — treatment,
trustworthiness and report are still set, the flow still advances to the
results step, and the similar-cases list is left empty. -/
theorem C7_similar_failure_harmless (data : ResultResponse)
    (similar : SimilarFetch) (st : FlowState) (store : Storage) (sid : String)
    (hsid : st.sessionId = some sid) (hempty : st.similarCases = [])
    (hfail : similarFailed similar = true) :
    (getFinalResult (.ok data) similar st store).1.treatment = some data.treatment
    ∧ (getFinalResult (.ok data) similar st store).1.trustworthiness
        = some data.trustworthiness
    ∧ (getFinalResult (.ok data) similar st store).1.report = some data.report
    ∧ (getFinalResult (.ok data) similar st store).1.step = 3
    ∧ (getFinalResult (.ok data) similar st store).1.similarCases = [] := by
  cases similar with
  | thrown => simp [getFinalResult, hsid, hempty]
  | json sdata =>
    cases h : sdata.similar_cases with
    | some cs => simp [similarFailed, h] at hfail
    | none => simp [getFinalResult, hsid, h, hempty]

/-- C7 witness: the similar-case fetch throws while the result response
succeeds. -/
theorem C7_witness :
    (getFinalResult (.ok sampleResultResponse) .thrown flowWithSession
        emptyStorage).1.step = 3
    ∧ (getFinalResult (.ok sampleResultResponse) .thrown flowWithSession
        emptyStorage).1.similarCases = [] :=
  ⟨(C7_similar_failure_harmless sampleResultResponse .thrown flowWithSession
      emptyStorage "s1" rfl rfl rfl).2.2.2.1,
   (C7_similar_failure_harmless sampleResultResponse .thrown flowWithSession
      emptyStorage "s1" rfl rfl rfl).2.2.2.2⟩

/-- C8: the built start_session request has the contracted shape —
extracted symptom codes, region defaulting to "Global", month present
only when stored and then in 1–12 (the selector offers exactly 1..12),
family history and genetic variants comma-split into trimmed nonempty
strings, and imaging fields only when the corresponding data exists. -/
theorem C8_start_request_shape (symptomsText : String)
    (cnnPreds : Option CnnPreds) (imgUrl gcamUrl csId : Option String)
    (store : Storage)
    (hmonth : ∀ m, store.symptomMonth = some m → m ∈ monthOptions) :
    (buildStartRequest symptomsText cnnPreds imgUrl gcamUrl csId store).symptoms
        = extractSymptoms symptomsText
    ∧ (optStrTruthy store.patientRegion = false →
        (buildStartRequest symptomsText cnnPreds imgUrl gcamUrl csId store).region
          = "Global")
    ∧ (store.symptomMonth = none →
        (buildStartRequest symptomsText cnnPreds imgUrl gcamUrl csId store).month = none)
    ∧ (∀ m,
        (buildStartRequest symptomsText cnnPreds imgUrl gcamUrl csId store).month = some m →
        1 ≤ m ∧ m ≤ 12)
    ∧ monthOptions = [1, 2, 3, 4, 5, 6, 7, 8, 9, 10, 11, 12]
    ∧ (∀ x ∈ (buildStartRequest symptomsText cnnPreds imgUrl gcamUrl csId store).family_history,
        x ≠ "" ∧ ∃ seg ∈ (jsOrElse store.familyHistory "").splitOn ",", x = jsTrim seg)
    ∧ (∀ x ∈ (buildStartRequest symptomsText cnnPreds imgUrl gcamUrl csId store).genetic_variants,
        x ≠ "" ∧ ∃ seg ∈ (jsOrElse store.geneticVariants "").splitOn ",", x = jsTrim seg)
    ∧ (buildStartRequest symptomsText cnnPreds imgUrl gcamUrl csId store).cnn_predictions
        = cnnPreds
    ∧ (csId = none →
        (buildStartRequest symptomsText cnnPreds imgUrl gcamUrl csId store).case_id = none)
    ∧ (imgUrl = none →
        (buildStartRequest symptomsText cnnPreds imgUrl gcamUrl csId store).image_url = none)
    ∧ (gcamUrl = none →
        (buildStartRequest symptomsText cnnPreds imgUrl gcamUrl csId store).gradcam_url
          = none) := by
  refine ⟨rfl, ?_, ?_, ?_, by decide, ?_, ?_, rfl, ?_, ?_, ?_⟩
  · intro h
    simpa [buildStartRequest] using jsOrElse_of_falsy _ _ h
  · intro h
    simp [buildStartRequest, h]
  · intro m hm
    have hmem := hmonth m (by simpa [buildStartRequest] using hm)
    simp only [monthOptions, List.mem_map, List.mem_range] at hmem
    omega
  · intro x hx
    cases hfh : store.familyHistory with
    | none => simp [buildStartRequest, hfh] at hx
    | some s =>
      by_cases hs : s = ""
      · simp [buildStartRequest, hfh, hs] at hx
      · simp only [buildStartRequest, hfh, if_neg hs, jsSplitTrimFilter,
          List.mem_filter, List.mem_map, decide_eq_true_eq] at hx
        obtain ⟨⟨seg, hseg, hx1⟩, hx2⟩ := hx
        refine ⟨hx2, seg, ?_, hx1.symm⟩
        simpa [jsOrElse, hs] using hseg
  · intro x hx
    cases hgv : store.geneticVariants with
    | none => simp [buildStartRequest, hgv] at hx
    | some s =>
      by_cases hs : s = ""
      · simp [buildStartRequest, hgv, hs] at hx
      · simp only [buildStartRequest, hgv, if_neg hs, jsSplitTrimFilter,
          List.mem_filter, List.mem_map, decide_eq_true_eq] at hx
        obtain ⟨⟨seg, hseg, hx1⟩, hx2⟩ := hx
        refine ⟨hx2, seg, ?_, hx1.symm⟩
        simpa [jsOrElse, hs] using hseg
  · intro h
    simp [buildStartRequest, h, optIfTruthy, optStrTruthy]
  · intro h
    simp [buildStartRequest, h, optIfTruthy, optStrTruthy]
  · intro h
    simp [buildStartRequest, h, optIfTruthy, optStrTruthy]

/-- C8 witness: a storage whose month came from the selector. -/
theorem C8_witness :
    (buildStartRequest "fever" none none none none storeContext).region = "Global"
    ∧ (1 ≤ 3 ∧ 3 ≤ 12) :=
  ⟨(C8_start_request_shape "fever" none none none none storeContext
      (fun m hm => (Option.some.inj hm) ▸ (by decide : (3 : ℕ) ∈ monthOptions))).2.1 rfl,
   (C8_start_request_shape "fever" none none none none storeContext
      (fun m hm => (Option.some.inj hm) ▸ (by decide : (3 : ℕ) ∈ monthOptions))).2.2.2.1
     3 rfl⟩

/-- C9: after a successful test-result submission the completed-tests
mapping sends the submitted test id to the submitted outcome, every other
completed entry is preserved unchanged, and the recommended slate is
replaced by the server-returned slate. -/
theorem C9_test_result_update (testId result : String)
    (data : TestResultResponse) (st : FlowState) (sid : String)
    (slate : List TestRec)
    (hsid : st.sessionId = some sid)
    (hslate : data.recommended_tests = some slate) :
    (submitTestResult testId result (.ok data) st).completedTests testId
      = some result
    ∧ (∀ k, k ≠ testId →
        (submitTestResult testId result (.ok data) st).completedTests k
          = st.completedTests k)
    ∧ (submitTestResult testId result (.ok data) st).recommendedTests = slate := by
  simp only [submitTestResult, hsid, hslate]
  exact ⟨by simp, fun k hk => by simp [hk], by trivial⟩

/-- C9 witness: submitting a positive result for test "t1". -/
theorem C9_witness :
    (submitTestResult "t1" "positive" (.ok sampleTestResultResponse)
        flowWithSession).completedTests "t1" = some "positive" :=
  (C9_test_result_update "t1" "positive" sampleTestResultResponse
    flowWithSession "s1" [] rfl rfl).1

/-- C10: both symptom-only paths clear all four imaging keys, so any
diagnosis the flow starts afterwards builds a start_session request with
no cnn_predictions, case_id, image_url or gradcam_url. -/
theorem C10_symptom_only_clears (symptoms region familyHistory geneticVariants : String)
    (month : Nat) (store : Storage) (data : SubmitResponse)
    (h1 : jsTrim symptoms ≠ "") (h2 : optStrTruthy store.symptoms = true) :
    (imagingCleared
        (handleSymptomOnlyAnalysis symptoms region month familyHistory geneticVariants store).1
      ∧ startHasNoImaging
        (handleSymptomOnlyAnalysis symptoms region month familyHistory geneticVariants store).1)
    ∧ (imagingCleared (handleSkipScan (.ok data) store).store
      ∧ startHasNoImaging (handleSkipScan (.ok data) store).store) := by
  have hA : (handleSymptomOnlyAnalysis symptoms region month familyHistory
        geneticVariants store).1
      = { store with
          symptoms := some symptoms, patientRegion := some region,
          symptomMonth := some month, familyHistory := some familyHistory,
          geneticVariants := some geneticVariants,
          cnnPredictions := none, imageUrl := none, gradcamUrl := none,
          diagnosisCaseId := none, diagnosisSessionId := none } := by
    simp [handleSymptomOnlyAnalysis, h1]
  have hB : (handleSkipScan (.ok data) store).store
      = { store with
          lastCaseId := some data.case_id, lastAnalysis := some data.raw,
          cnnPredictions := none, imageUrl := none, gradcamUrl := none,
          diagnosisCaseId := none, diagnosisSessionId := none } := by
    simp [handleSkipScan, h2]
  refine ⟨⟨?_, ?_⟩, ?_, ?_⟩
  · rw [hA]; exact ⟨rfl, rfl, rfl, rfl⟩
  · exact startHasNoImaging_of_cleared _ (by rw [hA]; exact ⟨rfl, rfl, rfl, rfl⟩)
  · rw [hB]; exact ⟨rfl, rfl, rfl, rfl⟩
  · exact startHasNoImaging_of_cleared _ (by rw [hB]; exact ⟨rfl, rfl, rfl, rfl⟩)

/-- C10 witness: the symptom-only handler evaluated on a storage holding
symptoms and stale imaging-free session data. -/
theorem C10_witness :
    imagingCleared
      (handleSymptomOnlyAnalysis "fever" "Global" 1 "" "" storeFever).1 :=
  (C10_symptom_only_clears "fever" "Global" "" "" 1 storeFever
    sampleSubmitResponse (by decide) (by decide)).1.1

end DiagnoMed
